import Mathlib

/-!
Shallow embedding of the seattle-sidekick tool registry and tool functions.

The repository contains four variants of one Next.js chat route:
`src/app/api/chat/route.tsx` plus three unnamed variants (`part_000`,
`part_001`, `part_002`).  Each variant declares a registry of tools
(`searchForPlaces`, `getLatLongOfLocation`, `getDirections`, and — in the
corpus variants — `lookUpSeattleInfo`), whose `func` implementations build a
query string for a Google Maps endpoint or call the Fixie corpus API.

The embedding below models:
* the process environment (`Env`) and JavaScript string falsiness;
* Node `querystring.stringify` value escaping (`qsEscape`);
* the outbound request parameter records each tool function constructs;
* the `ensurePlaceIsDescriptiveEnough` suffix heuristic of
  `route.tsx` / `part_002` versus the pass-through `getDirections` of
  `part_000` / `part_001`;
* the `FixieCorpus` constructor, `fixieFetch` and `FixieCorpus.search`
  (non-200 handling and chunk mapping), and `ChunkFormatter`;
* each tool function as a pure function from a transport outcome to a
  result plus the list of emitted structured log records;
* the `part_002` module lifecycle (module-level `coporaPromise`, per-request
  registry construction).
-/

namespace SeattleSidekick

/-- The process environment variables the route reads. -/
structure Env where
  GOOGLE_MAPS_API_KEY : Option String
  FIXIE_API_KEY : Option String
  FIXIE_API_URL : Option String
deriving Repr, DecidableEq

/-- JavaScript falsiness of an optional string: `undefined` and `""` are
falsy, every other string is truthy.  Used for `!fixieApiKey` checks. -/
def strFalsy : Option String → Bool
  | none => true
  | some s => s.isEmpty

/-- `defaultSeattleCoordinates` from every `App` variant. -/
def defaultSeattleCoordinates : String := "47.6062,-122.3321"

/-- `seattleCorpusId` from `route.tsx` and `part_002`. -/
def seattleCorpusId : String := "1138"

/-- Characters Node `querystring.escape` leaves unescaped:
`A-Z a-z 0-9 - _ . ! ~ * ' ( )`. -/
def qsUnescapedChar (c : Char) : Bool :=
  (c ≥ 'A' && c ≤ 'Z') || (c ≥ 'a' && c ≤ 'z') || (c ≥ '0' && c ≤ '9') ||
  c = '-' || c = '_' || c = '.' || c = '!' || c = '~' || c = '*' ||
  c = Char.ofNat 39 || c = '(' || c = ')'

/-- Uppercase hexadecimal digit for `n < 16`. -/
def hexDigitChar (n : Nat) : Char :=
  if n < 10 then Char.ofNat (48 + n) else Char.ofNat (55 + n)

/-- UTF-8 byte values of a character (as natural numbers). -/
def utf8ByteVals (c : Char) : List Nat :=
  let n := c.toNat
  if n < 128 then [n]
  else if n < 2048 then [192 + n / 64, 128 + n % 64]
  else if n < 65536 then [224 + n / 4096, 128 + (n / 64) % 64, 128 + n % 64]
  else [240 + n / 262144, 128 + (n / 4096) % 64, 128 + (n / 64) % 64,
    128 + n % 64]

/-- Percent-encoding of one character, one `%XX` triple per UTF-8 byte. -/
def percentEncodeChar (c : Char) : String :=
  String.join ((utf8ByteVals c).map
    (fun b => String.mk ['%', hexDigitChar (b / 16), hexDigitChar (b % 16)]))

/-- Node `querystring.escape`: percent-encode every character outside the
unescaped set. -/
def qsEscape (s : String) : String :=
  String.join (s.data.map
    (fun c => if qsUnescapedChar c then String.singleton c else
      percentEncodeChar c))

/-- Node `querystring.stringify` applied to already-escaped key/value pairs:
join each pair with `=` and the pairs with `&`. -/
def querystringStringify (pairs : List (String × String)) : String :=
  String.intercalate "&" (pairs.map (fun kv => kv.1 ++ "=" ++ kv.2))

/-- Stringification of one value of the `params` object: strings are
escaped, an absent (`undefined`) value becomes the empty string. -/
def qsValue : Option String → String
  | none => ""
  | some s => qsEscape s

/-- One declared tool parameter: name, JSON type and whether required. -/
structure ParamSpec where
  name : String
  type : String
  required : Bool
deriving Repr, DecidableEq

/-- Parameter schema of `searchForPlaces` (identical in all variants). -/
def searchForPlacesParameters : List ParamSpec :=
  [⟨"query", "string", true⟩, ⟨"location", "string", false⟩,
   ⟨"searchRadius", "number", false⟩]

/-- Parameter schema of `getLatLongOfLocation`. -/
def getLatLongOfLocationParameters : List ParamSpec :=
  [⟨"location", "string", true⟩]

/-- Parameter schema of `getDirections`. -/
def getDirectionsParameters : List ParamSpec :=
  [⟨"origin", "string", true⟩, ⟨"destination", "string", true⟩]

/-- Parameter schema of `lookUpSeattleInfo` (corpus variants). -/
def lookUpSeattleInfoParameters : List ParamSpec :=
  [⟨"query", "string", true⟩]

/-- The `params` object built by `searchForPlaces.func`:
`{ query, location, radius: searchRadius, key: process.env.GOOGLE_MAPS_API_KEY }`. -/
structure PlaceSearchParams where
  query : String
  location : String
  radius : Nat
  key : Option String
deriving Repr, DecidableEq

/-- `searchForPlaces.func` argument handling and request construction:
destructuring defaults `location = defaultSeattleCoordinates` and
`searchRadius = 1000` apply when the caller omits the argument, and the
`key` comes from the environment. -/
def searchForPlacesRequest (env : Env) (query : String)
    (location : Option String) (searchRadius : Option Nat) :
    PlaceSearchParams :=
  { query
    location := location.getD defaultSeattleCoordinates
    radius := searchRadius.getD 1000
    key := env.GOOGLE_MAPS_API_KEY }

/-- `querystring.stringify(params)` for the place-search request, in the
declaration order of the `params` object. -/
def placeSearchQueryString (p : PlaceSearchParams) : String :=
  querystringStringify
    [("query", qsEscape p.query), ("location", qsEscape p.location),
     ("radius", toString p.radius), ("key", qsValue p.key)]

/-- The full URL of the outbound place-search request. -/
def searchForPlacesUrl (p : PlaceSearchParams) : String :=
  "https://maps.googleapis.com/maps/api/place/textsearch/json?" ++
    placeSearchQueryString p

/-- The `params` object built by `getLatLongOfLocation.func`. -/
structure GeocodeParams where
  address : String
  key : Option String
deriving Repr, DecidableEq

/-- `getLatLongOfLocation.func` request construction. -/
def getLatLongRequest (env : Env) (location : String) : GeocodeParams :=
  { address := location, key := env.GOOGLE_MAPS_API_KEY }

/-- The `params` object built by `getDirections.func`
(declaration order: destination, origin, key). -/
structure DirectionsParams where
  destination : String
  origin : String
  key : Option String
deriving Repr, DecidableEq

/-- `ensurePlaceIsDescriptiveEnough` from `route.tsx` and `part_002`:
unconditionally append `", WA"` to the place string. -/
def ensurePlaceIsDescriptiveEnough (place : String) : String :=
  place ++ ", WA"

/-- `getDirections.func` request construction in `route.tsx` / `part_002`:
both endpoints go through `ensurePlaceIsDescriptiveEnough`. -/
def getDirectionsRequest (env : Env) (origin destination : String) :
    DirectionsParams :=
  { destination := ensurePlaceIsDescriptiveEnough destination
    origin := ensurePlaceIsDescriptiveEnough origin
    key := env.GOOGLE_MAPS_API_KEY }

/-- `getDirections.func` request construction in the router variants
`part_000` / `part_001`: origin and destination are passed through
unchanged. -/
def getDirectionsRequestRouter (env : Env) (origin destination : String) :
    DirectionsParams :=
  { destination, origin, key := env.GOOGLE_MAPS_API_KEY }

/-- The `metadata` object of a corpus chunk, as used by `ChunkFormatter`
(`doc.chunk.metadata?.source`): the object and its `source` field may each
be absent. -/
structure ChunkMetadata where
  source : Option String
deriving Repr, DecidableEq

/-- One hit as returned by the Fixie corpus API (`apiResults.chunks`
elements). The score is carried opaquely, so it is a type parameter. -/
structure ApiChunk (σ : Type) where
  content : String
  metadata : Option ChunkMetadata
  document_name : String
  score : σ
deriving Repr, DecidableEq

/-- The `chunk` record `FixieCorpus.search` builds from one hit. -/
structure ChunkData where
  content : String
  metadata : Option ChunkMetadata
  documentName : String
deriving Repr, DecidableEq

/-- The `ScoredChunk` record `FixieCorpus.search` returns. -/
structure ScoredChunk (σ : Type) where
  chunk : ChunkData
  score : σ
deriving Repr, DecidableEq

/-- The per-hit mapping inside `FixieCorpus.search`. -/
def toScoredChunk {σ : Type} (result : ApiChunk σ) : ScoredChunk σ :=
  { chunk :=
      { content := result.content
        metadata := result.metadata
        documentName := result.document_name }
    score := result.score }

/-- `apiResults.chunks.map(...)` from `FixieCorpus.search`. -/
def searchMapChunks {σ : Type} (chunks : List (ApiChunk σ)) :
    List (ScoredChunk σ) :=
  chunks.map toScoredChunk

/-- An HTTP response as observed by the code: status, `response.text()`
and the parsed JSON body. -/
structure HttpResponse (β : Type) where
  status : Nat
  text : String
  body : β
deriving Repr, DecidableEq

/-- The response of the corpus query endpoint: status, text, and the
`chunks` array of the parsed body. -/
structure CorpusResponse (σ : Type) where
  status : Nat
  text : String
  chunks : List (ApiChunk σ)
deriving Repr, DecidableEq

/-- The error message thrown when no Fixie API key is configured. -/
def fixieApiKeyError : String :=
  "You must provide a Fixie API key to access Fixie corpora. Find yours at https://app.fixie.ai/profile."

/-- The error message thrown on a non-200 Fixie response. -/
def fixieStatusError (status : Nat) (text : String) : String :=
  "Fixie API returned status " ++ toString status ++ ": " ++ text

/-- The state of a constructed `FixieCorpus` (`route.tsx` variant). -/
structure FixieCorpusState where
  corpusId : String
  fixieApiKey : Option String
  fixieApiUrl : String
deriving Repr, DecidableEq

/-- `FixieCorpus.DEFAULT_FIXIE_API_URL` from `route.tsx`. -/
def DEFAULT_FIXIE_API_URL : String := "https://app.fixie.ai/api"

/-- The `FixieCorpus` constructor from `route.tsx`: when the explicit
`fixieApiKey` argument is falsy it falls back to `process.env.FIXIE_API_KEY`,
and throws the remediation-hint error when that is falsy too. -/
def fixieCorpusNew (env : Env) (corpusId : String)
    (fixieApiKey : Option String) : Except String FixieCorpusState :=
  if strFalsy fixieApiKey then
    if strFalsy env.FIXIE_API_KEY then
      Except.error fixieApiKeyError
    else
      Except.ok
        { corpusId
          fixieApiKey := env.FIXIE_API_KEY
          fixieApiUrl := env.FIXIE_API_URL.getD DEFAULT_FIXIE_API_URL }
  else
    Except.ok
      { corpusId
        fixieApiKey
        fixieApiUrl := env.FIXIE_API_URL.getD DEFAULT_FIXIE_API_URL }

/-- `FixieCorpus.search` from `route.tsx`, as a function of the response the
remote service gives: a non-200 status throws the status error, a 200
response yields the mapped chunks. -/
def fixieCorpusSearch {σ : Type} (resp : CorpusResponse σ) :
    Except String (List (ScoredChunk σ)) :=
  if resp.status ≠ 200 then
    Except.error (fixieStatusError resp.status resp.text)
  else
    Except.ok (searchMapChunks resp.chunks)

/-- `fixieFetch` from `part_002`: first the API-key check (throwing the
remediation-hint error), then the status check on the response, then the
parsed body. -/
def fixieFetch {β : Type} (env : Env) (resp : HttpResponse β) :
    Except String β :=
  if strFalsy env.FIXIE_API_KEY then
    Except.error fixieApiKeyError
  else if resp.status ≠ 200 then
    Except.error (fixieStatusError resp.status resp.text)
  else
    Except.ok resp.body

/-- `ChunkFormatter` from `route.tsx` / `part_002`, rendered to text:
`"\n\n" ++ "Chunk from source: " ++ metadata?.source ++ fenced content`.
An absent metadata object or source renders as the empty string. -/
def chunkFormatter {σ : Type} (doc : ScoredChunk σ) : String :=
  "\n\nChunk from source: " ++
    ((doc.chunk.metadata.bind (fun m => m.source)).getD "") ++
    "\n```chunk \n" ++ doc.chunk.content ++ "\n```\n"

/-- The rendered output of `lookUpSeattleInfo.func`: the concatenation of
the formatted chunks, in result order. -/
def lookUpSeattleInfoOutput {σ : Type} (results : List (ScoredChunk σ)) :
    String :=
  String.join (results.map chunkFormatter)

/-- Log levels used by the tool functions. -/
inductive LogLevel where
  | info
  | warn
  | error
deriving Repr, DecidableEq

/-- A value stored in a structured log payload: a string argument, a numeric
argument, a response body, or a caught error. -/
inductive LogValue (β ε : Type) where
  | str : String → LogValue β ε
  | num : Nat → LogValue β ε
  | resp : β → LogValue β ε
  | err : ε → LogValue β ε
deriving Repr, DecidableEq

/-- One structured log record: level, named payload fields, message. -/
structure LogRecord (β ε : Type) where
  level : LogLevel
  fields : List (String × LogValue β ε)
  msg : String
deriving Repr, DecidableEq

/-- `searchForPlaces.func` as a function of the transport outcome: on a
response it returns `JSON.stringify(responseBody)` and logs one info record
with the response and the (defaulted) arguments; a transport error
propagates before the log statement runs. -/
def searchForPlacesFunc {β ε : Type} (env : Env) (stringify : β → String)
    (query : String) (location : Option String) (searchRadius : Option Nat)
    (outcome : Except ε β) : Except ε String × List (LogRecord β ε) :=
  let p := searchForPlacesRequest env query location searchRadius
  match outcome with
  | Except.error e => (Except.error e, [])
  | Except.ok responseBody =>
      (Except.ok (stringify responseBody),
       [{ level := LogLevel.info
          fields :=
            [("responseBody", LogValue.resp responseBody),
             ("query", LogValue.str p.query),
             ("location", LogValue.str p.location),
             ("searchRadius", LogValue.num p.radius)]
          msg := "Got response from google maps place search API" }])

/-- `getLatLongOfLocation.func` as a function of the transport outcome. -/
def getLatLongOfLocationFunc {β ε : Type} (env : Env)
    (stringify : β → String) (location : String) (outcome : Except ε β) :
    Except ε String × List (LogRecord β ε) :=
  let p := getLatLongRequest env location
  match outcome with
  | Except.error e => (Except.error e, [])
  | Except.ok responseBody =>
      (Except.ok (stringify responseBody),
       [{ level := LogLevel.info
          fields :=
            [("responseBody", LogValue.resp responseBody),
             ("location", LogValue.str p.address)]
          msg := "Got response from google maps geocode API" }])

/-- `getDirections.func` from `route.tsx` / `part_002` as a function of the
transport outcome: the success path logs `{responseBody, ..._.omit(params,
'key')}`; the catch branch logs `{e, ..._.omit(params, 'key')}` and
re-throws the identical error. -/
def getDirectionsFunc {β ε : Type} (env : Env) (stringify : β → String)
    (origin destination : String) (outcome : Except ε β) :
    Except ε String × List (LogRecord β ε) :=
  let params := getDirectionsRequest env origin destination
  match outcome with
  | Except.ok responseBody =>
      (Except.ok (stringify responseBody),
       [{ level := LogLevel.info
          fields :=
            [("responseBody", LogValue.resp responseBody),
             ("destination", LogValue.str params.destination),
             ("origin", LogValue.str params.origin)]
          msg := "Got response from google maps directions API" }])
  | Except.error e =>
      (Except.error e,
       [{ level := LogLevel.error
          fields :=
            [("e", LogValue.err e),
             ("destination", LogValue.str params.destination),
             ("origin", LogValue.str params.origin)]
          msg := "Got error calling google maps directions API" }])

/-- `lookUpSeattleInfo.func` from `route.tsx` as a function of the corpus
response: a `search` failure propagates before the log statement; on
success it logs `{results, query}` and renders the formatted chunks. -/
def lookUpSeattleInfoFunc {σ : Type} (query : String)
    (resp : CorpusResponse σ) :
    Except String String × List (LogRecord (List (ScoredChunk σ)) String) :=
  match fixieCorpusSearch resp with
  | Except.error e => (Except.error e, [])
  | Except.ok results =>
      (Except.ok (lookUpSeattleInfoOutput results),
       [{ level := LogLevel.info
          fields :=
            [("results", LogValue.resp results),
             ("query", LogValue.str query)]
          msg := "Got results from Fixie corpus search" }])

/-- One chat message of the request body (`{role, content}`). -/
structure ChatMessage where
  role : String
  content : String
deriving Repr, DecidableEq

/-- A JavaScript runtime error raised while evaluating the handler. -/
inductive JsError where
  | typeError : String → JsError
deriving Repr, DecidableEq

/-- The router query of the `part_000` / `part_001` `App`:
`const latestMessage = _.last(messages)!` followed by
`latestMessage.content!`.  On an empty messages list `_.last` yields
`undefined` and the `.content` access throws a `TypeError`; otherwise the
query is the content of the last message. -/
def routerLatestMessageQuery (messages : List ChatMessage) :
    Except JsError String :=
  match messages.getLast? with
  | none =>
      Except.error (JsError.typeError
        "Cannot read properties of undefined (reading content)")
  | some latestMessage => Except.ok latestMessage.content

/-- One entry of the tool registry: the tool name and its declared
parameter schema. -/
structure ToolDef where
  name : String
  parameters : List ParamSpec
deriving Repr, DecidableEq

/-- The request-scoped context the `part_002` registry closes over. -/
structure RequestCtx where
  defaultCoordinates : String
  corpusId : String
deriving Repr, DecidableEq

/-- A constructed tool registry: its entries plus the request-scoped
context the tool closures capture. -/
structure ToolRegistry where
  tools : List ToolDef
  ctx : RequestCtx
deriving Repr, DecidableEq

/-- The `tools` object constructed inside the `part_002` `App`: a pure
function of the request-scoped context. -/
def makeTools (ctx : RequestCtx) : ToolRegistry :=
  { tools :=
      [{ name := "lookUpSeattleInfo"
         parameters := lookUpSeattleInfoParameters },
       { name := "searchForPlaces"
         parameters := searchForPlacesParameters },
       { name := "getLatLongOfLocation"
         parameters := getLatLongOfLocationParameters },
       { name := "getDirections"
         parameters := getDirectionsParameters }]
    ctx }

/-- The module-level state of `part_002`: the settled result of
`coporaPromise`, started once at module load and shared by every request.
`γ` is the parsed GraphQL response body. -/
structure ModuleState (γ : Type) where
  corporaResult : Except String γ
deriving Repr

/-- Module initialization of `part_002`: `coporaPromise` is the one
`fixieFetch('/graphql', ...)` call made at load time. -/
def initModule {γ : Type} (env : Env) (graphqlResp : HttpResponse γ) :
    ModuleState γ :=
  { corporaResult := fixieFetch env graphqlResp }

/-- The registry-construction portion of one `part_002` request: `App`
awaits the shared `coporaPromise` (re-throwing its failure), then builds
the `tools` object fresh from request-scoped context.  The returned module
state shows the handler never writes the shared state. -/
def handleRequest {γ : Type} (m : ModuleState γ)
    (_messages : List ChatMessage) :
    Except String ToolRegistry × ModuleState γ :=
  match m.corporaResult with
  | Except.error e => (Except.error e, m)
  | Except.ok _ =>
      (Except.ok (makeTools
        { defaultCoordinates := defaultSeattleCoordinates
          corpusId := seattleCorpusId }), m)

/-- A concrete environment with a Google Maps key and a Fixie key. -/
def envFull : Env :=
  { GOOGLE_MAPS_API_KEY := some "gm-key-123"
    FIXIE_API_KEY := some "fixie-key-456"
    FIXIE_API_URL := none }

/-- A concrete environment missing the Google Maps key. -/
def envNoMaps : Env :=
  { GOOGLE_MAPS_API_KEY := none
    FIXIE_API_KEY := some "fixie-key-456"
    FIXIE_API_URL := none }

/-- A concrete environment missing every credential. -/
def envEmpty : Env :=
  { GOOGLE_MAPS_API_KEY := none
    FIXIE_API_KEY := none
    FIXIE_API_URL := none }

/-- A concrete corpus hit with source `blogA`. -/
def blogAChunk : ApiChunk Nat :=
  { content := "contentA"
    metadata := some { source := some "blogA" }
    document_name := "docA"
    score := 9 }

/-- A concrete corpus hit with source `blogB`. -/
def blogBChunk : ApiChunk Nat :=
  { content := "contentB"
    metadata := some { source := some "blogB" }
    document_name := "docB"
    score := 7 }

/-- Claim C1: for every `searchForPlaces` invocation with the required
`query` supplied, the outbound query string includes the escaped query, an
omitted `searchRadius` yields radius 1000, and an omitted `location` yields
the fixed reference coordinate `47.6062,-122.3321` (escaped in the query
string as `47.6062%2C-122.3321`). -/
theorem searchForPlaces_defaults (env : Env) (q : String) :
    (searchForPlacesRequest env q none none).query = q ∧
    (searchForPlacesRequest env q none none).location =
      defaultSeattleCoordinates ∧
    defaultSeattleCoordinates = "47.6062,-122.3321" ∧
    (searchForPlacesRequest env q none none).radius = 1000 ∧
    placeSearchQueryString (searchForPlacesRequest env q none none) =
      querystringStringify
        [("query", qsEscape q), ("location", "47.6062%2C-122.3321"),
         ("radius", "1000"), ("key", qsValue env.GOOGLE_MAPS_API_KEY)] := by
  have h1 : qsEscape defaultSeattleCoordinates = "47.6062%2C-122.3321" := by
    decide
  have h2 : toString (1000 : Nat) = "1000" := by decide
  refine ⟨rfl, rfl, rfl, rfl, ?_⟩
  simp [placeSearchQueryString, searchForPlacesRequest, h1, h2]

/-- Claim C2, counterexample: in the `part_001` (and `part_000`) variant
cited by the claim, `getDirections.func` does not append `", WA"`: input
`"Ballard"` is sent as `"Ballard"`, not `"Ballard, WA"`. -/
theorem getDirections_router_no_suffix :
    (getDirectionsRequestRouter envFull "Ballard" "Belltown").origin =
      "Ballard" ∧
    (getDirectionsRequestRouter envFull "Ballard" "Belltown").origin ≠
      "Ballard, WA" ∧
    (getDirectionsRequestRouter envFull "Ballard" "Belltown").destination =
      "Belltown" := by
  refine ⟨rfl, by decide, rfl⟩

/-- Claim C2, amended: in the variants defining
`ensurePlaceIsDescriptiveEnough` (`route.tsx`, `part_002`), `getDirections`
sets the outbound origin and destination to the input with the literal
suffix `", WA"` appended, regardless of the input (so `"Ballard"` yields
`"Ballard, WA"`); in the router variants `part_000` / `part_001`,
`getDirections` sends origin and destination unchanged. -/
theorem getDirections_suffix_by_variant (env : Env)
    (origin destination : String) :
    (getDirectionsRequest env origin destination).origin =
      origin ++ ", WA" ∧
    (getDirectionsRequest env origin destination).destination =
      destination ++ ", WA" ∧
    (getDirectionsRequest env "Ballard" destination).origin =
      "Ballard, WA" ∧
    (getDirectionsRequestRouter env origin destination).origin = origin ∧
    (getDirectionsRequestRouter env origin destination).destination =
      destination := by
  exact ⟨rfl, rfl, rfl, rfl, rfl⟩

/-- Claim C9: the `", WA"` append of `route.tsx` / `part_002` is
unconditional over every string the schema admits; in particular a lat/long
coordinate string and a Google Maps place ID are altered before being
sent. -/
theorem ensurePlace_unconditional (env : Env)
    (s origin destination : String) :
    ensurePlaceIsDescriptiveEnough s = s ++ ", WA" ∧
    (getDirectionsRequest env origin destination).origin =
      ensurePlaceIsDescriptiveEnough origin ∧
    (getDirectionsRequest env origin destination).destination =
      ensurePlaceIsDescriptiveEnough destination ∧
    (getDirectionsRequest env "47.6062,-122.3321"
      "ChIJVTPokywQkFQRmtVEaUZlJRA").origin = "47.6062,-122.3321, WA" ∧
    (getDirectionsRequest env "47.6062,-122.3321"
      "ChIJVTPokywQkFQRmtVEaUZlJRA").destination =
      "ChIJVTPokywQkFQRmtVEaUZlJRA, WA" := by
  exact ⟨rfl, rfl, rfl, rfl, rfl⟩

/-- Claim C4: the `key` query parameter of every mapping-service request is
taken from the environment, never from caller input: every request carries
`env.GOOGLE_MAPS_API_KEY`, two invocations differing only in caller
arguments carry the same key, and no tool schema declares a `key`
parameter. -/
theorem credential_from_env_only (env : Env) (q₁ q₂ : String)
    (l₁ l₂ : Option String) (r₁ r₂ : Option Nat)
    (loc₁ loc₂ o₁ o₂ d₁ d₂ : String) :
    (searchForPlacesRequest env q₁ l₁ r₁).key = env.GOOGLE_MAPS_API_KEY ∧
    (searchForPlacesRequest env q₁ l₁ r₁).key =
      (searchForPlacesRequest env q₂ l₂ r₂).key ∧
    (getLatLongRequest env loc₁).key = env.GOOGLE_MAPS_API_KEY ∧
    (getLatLongRequest env loc₁).key = (getLatLongRequest env loc₂).key ∧
    (getDirectionsRequest env o₁ d₁).key = env.GOOGLE_MAPS_API_KEY ∧
    (getDirectionsRequest env o₁ d₁).key =
      (getDirectionsRequest env o₂ d₂).key ∧
    (getDirectionsRequestRouter env o₁ d₁).key =
      env.GOOGLE_MAPS_API_KEY ∧
    "key" ∉ searchForPlacesParameters.map ParamSpec.name ∧
    "key" ∉ getLatLongOfLocationParameters.map ParamSpec.name ∧
    "key" ∉ getDirectionsParameters.map ParamSpec.name ∧
    "key" ∉ lookUpSeattleInfoParameters.map ParamSpec.name := by
  refine ⟨rfl, rfl, rfl, rfl, rfl, rfl, rfl, ?_, ?_, ?_, ?_⟩ <;> decide

/-- Claim C3: every corpus-search call (the `route.tsx`
`FixieCorpus.search` and the `part_002` `fixieFetch`) raises the
status-and-text error on a non-200 response and returns normally only on
status 200. -/
theorem corpus_search_non200 {σ β : Type} (resp : CorpusResponse σ)
    (env : Env) (r : HttpResponse β) :
    (resp.status ≠ 200 →
      fixieCorpusSearch resp =
        Except.error (fixieStatusError resp.status resp.text)) ∧
    (∀ out, fixieCorpusSearch resp = Except.ok out →
      resp.status = 200 ∧ out = searchMapChunks resp.chunks) ∧
    (strFalsy env.FIXIE_API_KEY = false → r.status ≠ 200 →
      fixieFetch env r =
        Except.error (fixieStatusError r.status r.text)) ∧
    (∀ b, fixieFetch env r = Except.ok b →
      r.status = 200 ∧ b = r.body) := by
  refine ⟨?_, ?_, ?_, ?_⟩
  · intro h
    simp [fixieCorpusSearch, h]
  · intro out h
    by_cases hs : resp.status = 200
    · refine ⟨hs, ?_⟩
      simp [fixieCorpusSearch, hs] at h
      exact h.symm
    · simp [fixieCorpusSearch, hs] at h
  · intro hk h
    simp [fixieFetch, hk, h]
  · intro b h
    by_cases hk : strFalsy env.FIXIE_API_KEY
    · simp [fixieFetch, hk] at h
    · by_cases hs : r.status = 200
      · refine ⟨hs, ?_⟩
        simp [fixieFetch, hk, hs] at h
        exact h.symm
      · simp [fixieFetch, hk, hs] at h

/-- Claim C3 witness: concrete non-200 responses make both corpus entry
points raise the status error. -/
theorem corpus_search_non200_witness :
    fixieCorpusSearch
      { status := 500, text := "oops",
        chunks := ([] : List (ApiChunk Nat)) } =
      Except.error (fixieStatusError 500 "oops") ∧
    fixieFetch envFull { status := 404, text := "nf", body := (0 : Nat) } =
      Except.error (fixieStatusError 404 "nf") ∧
    fixieStatusError 500 "oops" = "Fixie API returned status 500: oops" := by
  have h := corpus_search_non200
    (σ := Nat) (β := Nat)
    { status := 500, text := "oops", chunks := [] } envFull
    { status := 404, text := "nf", body := 0 }
  exact ⟨h.1 (by decide), h.2.2.1 (by decide) (by decide), by decide⟩

/-- Claim C5: `FixieCorpus.search` maps the service's hits one-to-one in
order into `{content, metadata, documentName, score}` records, the
`lookUpSeattleInfo` text is the concatenation, in that order, of one block
per chunk prefixed `Chunk from source: ` with the chunk content fenced, and
on a 200 response the tool returns exactly that text; for two chunks with
sources `blogA` and `blogB` the text contains both prefixed fenced blocks
in that order. -/
theorem corpus_mapping_and_format {σ : Type}
    (apiChunks : List (ApiChunk σ)) (q t : String) :
    (searchMapChunks apiChunks).length = apiChunks.length ∧
    (∀ i, (searchMapChunks apiChunks).get? i =
      (apiChunks.get? i).map toScoredChunk) ∧
    lookUpSeattleInfoOutput (searchMapChunks apiChunks) =
      String.join (apiChunks.map (fun r =>
        "\n\nChunk from source: " ++
          ((r.metadata.bind (fun m => m.source)).getD "") ++
          "\n```chunk \n" ++ r.content ++ "\n```\n")) ∧
    (lookUpSeattleInfoFunc q
      { status := 200, text := t, chunks := apiChunks }).1 =
      Except.ok (lookUpSeattleInfoOutput (searchMapChunks apiChunks)) ∧
    lookUpSeattleInfoOutput (searchMapChunks [blogAChunk, blogBChunk]) =
      "\n\nChunk from source: blogA\n```chunk \ncontentA\n```\n" ++
        "\n\nChunk from source: blogB\n```chunk \ncontentB\n```\n" := by
  refine ⟨?_, ?_, ?_, ?_, ?_⟩
  · simp [searchMapChunks]
  · intro i
    simp [searchMapChunks]
  · have hfun : (fun r : ApiChunk σ => chunkFormatter (toScoredChunk r)) =
        (fun r : ApiChunk σ =>
          "\n\nChunk from source: " ++
            ((r.metadata.bind (fun m => m.source)).getD "") ++
            "\n```chunk \n" ++ r.content ++ "\n```\n") := by
      funext r
      simp [chunkFormatter, toScoredChunk]
    simp only [lookUpSeattleInfoOutput, searchMapChunks, List.map_map,
      Function.comp_def, hfun]
  · simp [lookUpSeattleInfoFunc, fixieCorpusSearch]
  · decide

/-- Claim C6, counterexample: with the mapping-service credential absent
from the environment, the first `searchForPlaces` call does not raise a
configuration error — it proceeds, sending the request with an empty `key`
query parameter. -/
theorem missing_maps_key_proceeds :
    envNoMaps.GOOGLE_MAPS_API_KEY = none ∧
    (searchForPlacesRequest envNoMaps "brunch" none none).key = none ∧
    placeSearchQueryString
      (searchForPlacesRequest envNoMaps "brunch" none none) =
      "query=brunch&location=47.6062%2C-122.3321&radius=1000&key=" ∧
    (searchForPlacesFunc envNoMaps (fun s : String => s) "brunch" none none
      (Except.ok "resp" : Except String String)).1 = Except.ok "resp" := by
  refine ⟨rfl, rfl, by decide, rfl⟩

/-- Claim C6, amended: only the corpus-service credential is enforced —
when it is absent from both the explicit argument and the environment, the
first use of `FixieCorpus` / `fixieFetch` raises an error whose message
carries the remediation hint URL; an absent mapping-service credential
does not raise, the mapping tools proceed with an empty `key` parameter. -/
theorem fixie_missing_key_raises (env : Env) (corpusId : String)
    (keyArg : Option String) {β β' : Type} (r : HttpResponse β)
    (stringify : β' → String) (q : String) (loc : Option String)
    (rad : Option Nat) (body : β')
    (h1 : strFalsy keyArg = true) (h2 : strFalsy env.FIXIE_API_KEY = true)
    (h3 : env.GOOGLE_MAPS_API_KEY = none) :
    fixieCorpusNew env corpusId keyArg = Except.error fixieApiKeyError ∧
    fixieFetch env r = Except.error fixieApiKeyError ∧
    (∃ pre post, fixieApiKeyError =
      pre ++ "https://app.fixie.ai/profile" ++ post) ∧
    (searchForPlacesFunc env stringify q loc rad
      (Except.ok body : Except String β')).1 =
      Except.ok (stringify body) ∧
    (searchForPlacesRequest env q loc rad).key = none := by
  refine ⟨?_, ?_, ?_, rfl, ?_⟩
  · simp [fixieCorpusNew, h1, h2]
  · simp [fixieFetch, h2]
  · exact ⟨"You must provide a Fixie API key to access Fixie corpora. Find yours at ",
      ".", by decide⟩
  · simp [searchForPlacesRequest, h3]

/-- Claim C6 witness: with every credential absent, the corpus entry points
raise the remediation error while the mapping tool call proceeds. -/
theorem fixie_missing_key_raises_witness :
    fixieCorpusNew envEmpty "1138" none = Except.error fixieApiKeyError ∧
    fixieFetch envEmpty { status := 200, text := "", body := (0 : Nat) } =
      Except.error fixieApiKeyError ∧
    (∃ pre post, fixieApiKeyError =
      pre ++ "https://app.fixie.ai/profile" ++ post) ∧
    (searchForPlacesFunc envEmpty (fun s : String => s) "brunch" none none
      (Except.ok "resp" : Except String String)).1 = Except.ok "resp" ∧
    (searchForPlacesRequest envEmpty "brunch" none none).key = none :=
  fixie_missing_key_raises envEmpty "1138" none
    { status := 200, text := "", body := (0 : Nat) }
    (fun s : String => s) "brunch" none none "resp" rfl rfl rfl

/-- Claim C7, counterexample: a `searchForPlaces` call whose transport
fails emits zero log records, not exactly one. -/
theorem searchForPlaces_error_no_log :
    (searchForPlacesFunc envFull (fun s : String => s) "brunch" none none
      (Except.error "ECONNREFUSED")).2 = [] ∧
    (searchForPlacesFunc envFull (fun s : String => s) "brunch" none none
      (Except.error "ECONNREFUSED")).2.length ≠ 1 := by
  refine ⟨rfl, by decide⟩

/-- Claim C7, amended: each tool function emits exactly one structured log
record per call that receives a response, whose payload holds the response
and the (defaulted or suffixed) caller-visible arguments and no `key`
field; tool functions other than `getDirections` emit no record when the
transport fails; on the `getDirections` error path exactly one error
record with the failing arguments (credential excluded) is emitted and the
identical error is re-raised. -/
theorem tool_logging (env : Env) {β ε σ : Type} (stringify : β → String)
    (q lookQ o d loc t : String) (l : Option String) (rad : Option Nat)
    (body : β) (chunks : List (ApiChunk σ)) (e : ε) :
    (searchForPlacesFunc env stringify q l rad (Except.ok body : Except ε β)).2.length
      = 1 ∧
    (∀ rec, rec ∈ (searchForPlacesFunc env stringify q l rad
        (Except.ok body : Except ε β)).2 →
      rec.fields.lookup "responseBody" = some (LogValue.resp body) ∧
      rec.fields.lookup "query" = some (LogValue.str q) ∧
      rec.fields.lookup "location" =
        some (LogValue.str (l.getD defaultSeattleCoordinates)) ∧
      rec.fields.lookup "searchRadius" =
        some (LogValue.num (rad.getD 1000)) ∧
      rec.fields.lookup "key" = none) ∧
    (searchForPlacesFunc env stringify q l rad (Except.error e)).2 = [] ∧
    (getLatLongOfLocationFunc env stringify loc
      (Except.ok body : Except ε β)).2.length = 1 ∧
    (∀ rec, rec ∈ (getLatLongOfLocationFunc env stringify loc
        (Except.ok body : Except ε β)).2 →
      rec.fields.lookup "responseBody" = some (LogValue.resp body) ∧
      rec.fields.lookup "location" = some (LogValue.str loc) ∧
      rec.fields.lookup "key" = none) ∧
    (getLatLongOfLocationFunc env stringify loc (Except.error e)).2
      = [] ∧
    (getDirectionsFunc env stringify o d (Except.ok body : Except ε β)).2.length = 1 ∧
    (∀ rec, rec ∈ (getDirectionsFunc env stringify o d
        (Except.ok body : Except ε β)).2 →
      rec.fields.lookup "responseBody" = some (LogValue.resp body) ∧
      rec.fields.lookup "origin" = some (LogValue.str (o ++ ", WA")) ∧
      rec.fields.lookup "destination" =
        some (LogValue.str (d ++ ", WA")) ∧
      rec.fields.lookup "key" = none) ∧
    (getDirectionsFunc env stringify o d (Except.error e)).1 =
      Except.error e ∧
    (getDirectionsFunc env stringify o d (Except.error e)).2.length = 1 ∧
    (∀ rec, rec ∈ (getDirectionsFunc env stringify o d
        (Except.error e)).2 →
      rec.level = LogLevel.error ∧
      rec.fields.lookup "e" = some (LogValue.err e) ∧
      rec.fields.lookup "origin" = some (LogValue.str (o ++ ", WA")) ∧
      rec.fields.lookup "destination" =
        some (LogValue.str (d ++ ", WA")) ∧
      rec.fields.lookup "key" = none) ∧
    (lookUpSeattleInfoFunc lookQ
      { status := 200, text := t, chunks := chunks }).2.length = 1 ∧
    (∀ rec, rec ∈ (lookUpSeattleInfoFunc lookQ
        { status := 200, text := t, chunks := chunks }).2 →
      rec.fields.lookup "results" =
        some (LogValue.resp (searchMapChunks chunks)) ∧
      rec.fields.lookup "query" = some (LogValue.str lookQ) ∧
      rec.fields.lookup "key" = none) ∧
    (lookUpSeattleInfoFunc lookQ
      { status := 500, text := t, chunks := chunks }).2 = [] := by
  refine ⟨rfl, ?_, rfl, rfl, ?_, rfl, rfl, ?_, rfl, rfl, ?_, rfl, ?_, ?_⟩
  · intro rec hrec
    simp [searchForPlacesFunc, searchForPlacesRequest] at hrec
    subst hrec
    refine ⟨?_, ?_, ?_, ?_, ?_⟩ <;> simp [List.lookup]
  · intro rec hrec
    simp [getLatLongOfLocationFunc, getLatLongRequest] at hrec
    subst hrec
    refine ⟨?_, ?_, ?_⟩ <;> simp [List.lookup]
  · intro rec hrec
    simp [getDirectionsFunc, getDirectionsRequest,
      ensurePlaceIsDescriptiveEnough] at hrec
    subst hrec
    refine ⟨?_, ?_, ?_, ?_⟩ <;> simp [List.lookup]
  · intro rec hrec
    simp [getDirectionsFunc, getDirectionsRequest,
      ensurePlaceIsDescriptiveEnough] at hrec
    subst hrec
    refine ⟨rfl, ?_, ?_, ?_, ?_⟩ <;> simp [List.lookup]
  · intro rec hrec
    simp [lookUpSeattleInfoFunc, fixieCorpusSearch] at hrec
    subst hrec
    refine ⟨?_, ?_, ?_⟩ <;> simp [List.lookup]
  · simp [lookUpSeattleInfoFunc, fixieCorpusSearch]

/-- Claim C7 witness: the logging facts at concrete inputs — one info
record for a successful place search, zero records for its failed
transport, and the identical-rethrow on the `getDirections` error path. -/
theorem tool_logging_witness :
    (searchForPlacesFunc envFull (fun s : String => s) "brunch" none none
      (Except.ok "R" : Except String String)).2.length = 1 ∧
    (searchForPlacesFunc envFull (fun s : String => s) "brunch" none none
      (Except.error "boom")).2 = [] ∧
    (getDirectionsFunc envFull (fun s : String => s) "Ballard" "Belltown"
      (Except.error "boom")).1 = Except.error "boom" := by
  have h := tool_logging envFull (fun s : String => s) "brunch" "news"
    "Ballard" "Belltown" "Cap Hill" "" none none "R"
    ([] : List (ApiChunk Nat)) ("boom" : String)
  exact ⟨h.1, h.2.2.1, h.2.2.2.2.2.2.2.2.1⟩

/-- Claim C8: in the `part_002` lifecycle, handling a request never writes
the shared module state, and the registry handed to the dispatcher is
constructed by the pure `makeTools` from request-scoped context only — two
requests against possibly different settled corpora results obtain the
same registry value, so construction reads nothing from shared I/O. -/
theorem registry_fresh_and_pure {γ : Type} (m m' : ModuleState γ)
    (req req' : List ChatMessage) (x y : γ)
    (hm : m.corporaResult = Except.ok x)
    (hm' : m'.corporaResult = Except.ok y) :
    (handleRequest m req).2 = m ∧
    (handleRequest m' req').2 = m' ∧
    (handleRequest m req).1 =
      Except.ok (makeTools
        { defaultCoordinates := defaultSeattleCoordinates
          corpusId := seattleCorpusId }) ∧
    (handleRequest m req).1 = (handleRequest m' req').1 := by
  refine ⟨?_, ?_, ?_, ?_⟩ <;> simp [handleRequest, hm, hm']

/-- Claim C8 witness: two concrete requests against different module states
leave the states unchanged and build identical fresh registries. -/
theorem registry_fresh_and_pure_witness :
    (handleRequest { corporaResult := Except.ok (0 : Nat) } []).2 =
      { corporaResult := Except.ok (0 : Nat) } ∧
    (handleRequest { corporaResult := Except.ok (1 : Nat) }
      [{ role := "user", content := "hi" }]).2 =
      { corporaResult := Except.ok (1 : Nat) } ∧
    (handleRequest { corporaResult := Except.ok (0 : Nat) } []).1 =
      Except.ok (makeTools
        { defaultCoordinates := defaultSeattleCoordinates
          corpusId := seattleCorpusId }) ∧
    (handleRequest { corporaResult := Except.ok (0 : Nat) } []).1 =
      (handleRequest { corporaResult := Except.ok (1 : Nat) }
        [{ role := "user", content := "hi" }]).1 :=
  registry_fresh_and_pure { corporaResult := Except.ok 0 }
    { corporaResult := Except.ok 1 } []
    [{ role := "user", content := "hi" }] 0 1 rfl rfl

/-- Claim C10: in the router variants the query handed to
`NaturalLanguageRouter` is the content of the last message, and on an
empty messages list evaluating the handler raises a `TypeError` (the
`_.last` result is undefined) instead of producing a reply. -/
theorem router_empty_messages (messages : List ChatMessage) :
    (messages = [] → routerLatestMessageQuery messages =
      Except.error (JsError.typeError
        "Cannot read properties of undefined (reading content)")) ∧
    (∀ m, messages.getLast? = some m →
      routerLatestMessageQuery messages = Except.ok m.content) ∧
    (messages ≠ [] →
      ∃ q, routerLatestMessageQuery messages = Except.ok q) := by
  refine ⟨?_, ?_, ?_⟩
  · intro h
    subst h
    rfl
  · intro m h
    simp [routerLatestMessageQuery, h]
  · intro h
    obtain ⟨m, hm⟩ := Option.isSome_iff_exists.mp
      (List.getLast?_isSome.mpr h)
    exact ⟨m.content, by simp [routerLatestMessageQuery, hm]⟩

/-- Claim C10 witness: the empty conversation raises, a one-message
conversation yields that message's content as the router query. -/
theorem router_empty_messages_witness :
    routerLatestMessageQuery [] =
      Except.error (JsError.typeError
        "Cannot read properties of undefined (reading content)") ∧
    routerLatestMessageQuery
      [{ role := "user",
         content := "how can I get from ballard to belltown?" }] =
      Except.ok "how can I get from ballard to belltown?" := by
  refine ⟨(router_empty_messages []).1 rfl, ?_⟩
  exact (router_empty_messages
    [{ role := "user",
       content := "how can I get from ballard to belltown?" }]).2.1
    { role := "user", content := "how can I get from ballard to belltown?" }
    rfl

end SeattleSidekick
